import Mathlib

/-!
Verification development for the keystone catalog excerpt: the
`081_add_endpoint_policy_table` schema migration and the catalog
subsystem (regions, services, endpoints) exercised by
`test_v3_catalog.py`.

The migration script is embedded directly from
`keystone/common/sql/migrate_repo/versions/081_add_endpoint_policy_table.py`.
The catalog Manager itself (entity store, URL template resolver, catalog
assembler, filter engine) is not part of this file set — only its tests
are — so those operations are modelled from the specification
(sections 3, 4.1–4.4, 7).
-/

deriving instance DecidableEq for Except

namespace Keystone

/-! ## Schema migration 081 (embedded from the source file) -/

/-- A SQL column type as used by the migration (`sql.String(64)`). -/
inductive SqlType where
  | varchar (n : Nat)
deriving DecidableEq, Repr

/-- A column declaration: name, type, whether it is a primary key and
whether it is nullable.  In the source, `primary_key=True` implies the
column is not nullable. -/
structure Column where
  name : String
  ty : SqlType
  primaryKey : Bool
  nullable : Bool
deriving DecidableEq, Repr

/-- A table schema: name, ordered column list and the column names of the
single unique constraint declared by the migration. -/
structure TableSchema where
  name : String
  columns : List Column
  uniqueConstraint : List String
deriving DecidableEq, Repr

/-- The `policy_association` table exactly as declared in
`081_add_endpoint_policy_table.py` lines 38–52. -/
def endpoint_policy_table : TableSchema :=
  { name := "policy_association"
    columns :=
      [ { name := "id", ty := .varchar 64, primaryKey := true, nullable := false }
      , { name := "policy_id", ty := .varchar 64, primaryKey := false, nullable := false }
      , { name := "endpoint_id", ty := .varchar 64, primaryKey := false, nullable := true }
      , { name := "service_id", ty := .varchar 64, primaryKey := false, nullable := true }
      , { name := "region_id", ty := .varchar 64, primaryKey := false, nullable := true } ]
    uniqueConstraint := ["endpoint_id", "service_id", "region_id"] }

/-- The database state visible to the migration: the set of existing
tables, as a list of schemas. -/
structure MigrateDB where
  tables : List TableSchema
deriving DecidableEq, Repr

/-- `Table.create(engine, checkfirst=True)`: create the table only if no
table of that name exists yet. -/
def createTableCheckfirst (t : TableSchema) (db : MigrateDB) : MigrateDB :=
  if db.tables.any (fun x => x.name == t.name) then db
  else { tables := db.tables ++ [t] }

/-- The `upgrade` function of `081_add_endpoint_policy_table.py`.
`migration_helpers.get_db_version` lives outside this file set; its
outcome (a version, or a raised exception carried as a `String`) is the
`versionRead` input.  The `try/except Exception` of lines 21–26 maps any
error to version 0; lines 30–31 return unchanged when the stored
extension version is already at least 1; otherwise the
`policy_association` table is created with `checkfirst=True`. -/
def upgrade (versionRead : Except String Nat) (db : MigrateDB) : MigrateDB :=
  let extension_version :=
    match versionRead with
    | .ok v => v
    | .error _ => 0
  if extension_version ≥ 1 then db
  else createTableCheckfirst endpoint_policy_table db

/-! ## Catalog data model (modelled from the spec) -/

/-- Modelled from the spec: the error taxonomy of section 7 for the
entity store (`Conflict`, `NotFound`, `InvalidInput`).  The catalog
Manager implementation is not in this file set. -/
inductive Err where
  | conflict
  | notFound
  | invalidInput
deriving DecidableEq, Repr

/-- Modelled from the spec: the HTTP status each error class surfaces as
(section 6: 409 on duplicate id, 404 on missing id, 400 on malformed
input). -/
def statusOf : Err → Nat
  | .conflict => 409
  | .notFound => 404
  | .invalidInput => 400

/-- Modelled from the spec: an endpoint's visibility role (section 3). -/
inductive Iface where
  | publicIface
  | internalIface
  | adminIface
deriving DecidableEq, Repr

/-- Modelled from the spec: a stored Region record (section 3). -/
structure Region where
  id : String
  description : String
  parent_region_id : Option String
deriving DecidableEq, Repr

/-- Modelled from the spec: a stored Service record (section 3);
`name` and `enabled` are always normalized in storage. -/
structure Service where
  id : String
  type : String
  name : String
  enabled : Bool
deriving DecidableEq, Repr

/-- Modelled from the spec: a stored Endpoint record (section 3).  URL
templates are stored verbatim; resolution happens at catalog-assembly
time. -/
structure Endpoint where
  id : String
  service_id : String
  region_id : Option String
  iface : Iface
  url : String
  enabled : Bool
deriving DecidableEq, Repr

/-- Modelled from the spec: the entity store persisting regions,
services and endpoints. -/
structure Store where
  regions : List Region
  services : List Service
  endpoints : List Endpoint
deriving DecidableEq, Repr

/-- Modelled from the spec: look a region up by id. -/
def findRegion (st : Store) (id : String) : Option Region :=
  st.regions.find? (fun r => r.id == id)

/-- Modelled from the spec: the input reference for region creation
(section 4.1).  `id` may be absent; `description` may be absent or null
(both normalize to `""`). -/
structure RegionRef where
  id : Option String
  description : Option String
  parent_region_id : Option String
deriving DecidableEq, Repr

/-- Modelled from the spec: `create_region(ref)` (section 4.1).  The
catalog Manager implementation is not in this file set.  If `id` is
absent or empty a fresh id (`genId`) is used; if the supplied id already
exists the operation fails with `Conflict` and the store is unchanged;
`description` is normalized to `""`. -/
def create_region (genId : String) (ref : RegionRef) (st : Store) :
    Except Err Region × Store :=
  let id :=
    match ref.id with
    | none => genId
    | some i => if i = "" then genId else i
  if (findRegion st id).isSome then (.error .conflict, st)
  else
    let r : Region :=
      { id := id
        description := ref.description.getD ""
        parent_region_id := ref.parent_region_id }
    (.ok r, { st with regions := st.regions ++ [r] })

/-- Modelled from the spec: `PUT /regions/\x7bregion_id\x7d` (section 6,
and the conflicting-ids test).  A body id that differs from the path id
is malformed input (400) and nothing is stored; otherwise the region is
created under the path id. -/
def put_region (pathId : String) (ref : RegionRef) (st : Store) :
    Except Err Region × Store :=
  match ref.id with
  | some bodyId =>
      if bodyId = pathId then
        create_region pathId { ref with id := some pathId } st
      else (.error .invalidInput, st)
  | none => create_region pathId { ref with id := some pathId } st

/-- Modelled from the spec: a partial region update (section 4.1).  The
outer `Option` is field presence in the patch; for `description` the
inner `Option` distinguishes an explicit null (normalized to `""`) from
a value. -/
structure RegionPatch where
  description : Option (Option String)
  parent_region_id : Option (Option String)
deriving DecidableEq, Repr

/-- Modelled from the spec: merge semantics of a partial update — fields
omitted from the patch are left unchanged; a null `description` is
normalized to `""`. -/
def applyRegionPatch (r : Region) (p : RegionPatch) : Region :=
  { id := r.id
    description :=
      match p.description with
      | none => r.description
      | some none => ""
      | some (some d) => d
    parent_region_id :=
      match p.parent_region_id with
      | none => r.parent_region_id
      | some v => v }

/-- Modelled from the spec: `update_region(id, partial)` (section 4.1):
`NotFound` when the id is absent, otherwise the stored record is
replaced by the merge of the old record with the patch. -/
def update_region (id : String) (p : RegionPatch) (st : Store) :
    Except Err Region × Store :=
  match findRegion st id with
  | none => (.error .notFound, st)
  | some r =>
      let merged := applyRegionPatch r p
      (.ok merged,
       { st with regions := st.regions.map (fun x => if x.id = id then merged else x) })

/-- Modelled from the spec: the `enabled` attribute as it arrives on the
wire — absent, a proper JSON boolean, or a string. -/
inductive EnabledInput where
  | absent
  | bool (b : Bool)
  | str (s : String)
deriving DecidableEq, Repr

/-- Modelled from the spec: `enabled` must be a strict boolean; absent
defaults to `true`; any string representation is rejected as malformed
input (sections 3 and 4.1). -/
def parseEnabled : EnabledInput → Except Err Bool
  | .absent => .ok true
  | .bool b => .ok b
  | .str _ => .error .invalidInput

/-- Modelled from the spec: the input reference for service creation. -/
structure ServiceRef where
  type : String
  name : Option String
  enabled : EnabledInput
deriving DecidableEq, Repr

/-- Modelled from the spec: `create_service(id, ref)` (section 4.1):
normalizes `name` to `""` and `enabled` to `true` when absent; fails
with `InvalidInput` when `enabled` is a non-boolean value. -/
def create_service (id : String) (ref : ServiceRef) (st : Store) :
    Except Err Service × Store :=
  match parseEnabled ref.enabled with
  | .error e => (.error e, st)
  | .ok b =>
      let svc : Service :=
        { id := id, type := ref.type, name := ref.name.getD "", enabled := b }
      (.ok svc, { st with services := st.services ++ [svc] })

/-- Modelled from the spec: the equality filters supported by
`list_endpoints` (section 4.1/4.4): `interface`, `service_id`,
`region_id`; an absent filter matches everything. -/
structure EndpointFilter where
  iface : Option Iface := none
  service_id : Option String := none
  region_id : Option String := none
deriving DecidableEq, Repr

/-- Modelled from the spec: whether an endpoint satisfies a conjunction
of equality filters; `region_id` is an exact match on the endpoint's own
`region_id`, never descendant-inclusive. -/
def matchesFilter (f : EndpointFilter) (e : Endpoint) : Bool :=
  (match f.iface with
   | none => true
   | some i => decide (e.iface = i)) &&
  (match f.service_id with
   | none => true
   | some s => decide (e.service_id = s)) &&
  (match f.region_id with
   | none => true
   | some r => decide (e.region_id = some r))

/-- Modelled from the spec: `list_endpoints(filters)` — every stored
endpoint satisfying the filters, in store order (section 4.1). -/
def list_endpoints (f : EndpointFilter) (st : Store) : List Endpoint :=
  st.endpoints.filter (fun e => matchesFilter f e)

/-- Modelled from the spec: the empty filter set (`list_endpoints()`). -/
def noFilter : EndpointFilter := {}

/-! ## URL template resolver (modelled from the spec, section 4.2) -/

/-- Modelled from the spec: the resolution failure classes of
section 4.2 — unknown key, a required key lacking a value in the
substitution context, and malformed placeholder syntax (unterminated or
garbled template, or a specifier other than `s`). -/
inductive UrlError where
  | unknownKey
  | missingValue
  | malformed
deriving DecidableEq, Repr

/-- Modelled from the spec: the parsing mode while scanning a
`%(key)s`-style template. -/
inductive FmtMode where
  | plain
  | percent
  | key (acc : String)
  | spec (key : String)
deriving DecidableEq, Repr

/-- Modelled from the spec: scan a template left to right.  The
substitution context `ctx` returns `none` for a key outside the
whitelist, `some none` for a whitelisted key whose value is absent, and
`some (some v)` for a resolvable key.  `%(` opens a placeholder, `)`
closes the key, and only the `s` specifier resolves; a template ending
inside a placeholder is malformed. -/
def fmtStep (ctx : String → Option (Option String)) :
    FmtMode → List Char → Except UrlError (List Char)
  | .plain, [] => .ok []
  | .plain, c :: rest =>
      if c = '%' then fmtStep ctx .percent rest
      else (fmtStep ctx .plain rest).map (fun s => c :: s)
  | .percent, [] => .error .malformed
  | .percent, c :: rest =>
      if c = '(' then fmtStep ctx (.key "") rest
      else .error .malformed
  | .key _, [] => .error .malformed
  | .key acc, c :: rest =>
      if c = ')' then fmtStep ctx (.spec acc) rest
      else fmtStep ctx (.key (acc.push c)) rest
  | .spec _, [] => .error .malformed
  | .spec k, c :: rest =>
      if c = 's' then
        match ctx k with
        | none => .error .unknownKey
        | some none => .error .missingValue
        | some (some v) => (fmtStep ctx .plain rest).map (fun s => v.data ++ s)
      else .error .malformed

/-- Modelled from the spec: the substitution context used by the catalog
assembler (sections 4.2/4.3): the whitelisted keys are `tenant_id` and
`project_id` (both bound to the caller's tenant, which may be absent)
and `user_id`. -/
def substContext (userId : String) (tenantId : Option String) :
    String → Option (Option String) :=
  fun k =>
    if k = "tenant_id" then some tenantId
    else if k = "project_id" then some tenantId
    else if k = "user_id" then some (some userId)
    else none

/-- Modelled from the spec: expand one endpoint URL template, or report
a resolution failure. -/
def resolveUrl (userId : String) (tenantId : Option String) (u : String) :
    Except UrlError String :=
  (fmtStep (substContext userId tenantId) .plain u.data).map String.mk

/-! ## Catalog assembler (modelled from the spec, section 4.3) -/

/-- Modelled from the spec: one endpoint entry of the effective catalog;
`region` duplicates `region_id` for backward compatibility. -/
structure CatalogEndpointView where
  id : String
  iface : Iface
  region_id : Option String
  region : Option String
  url : String
deriving DecidableEq, Repr

/-- Modelled from the spec: the catalog view of an endpoint whose URL
resolved to `u`. -/
def endpointView (e : Endpoint) (u : String) : CatalogEndpointView :=
  { id := e.id, iface := e.iface, region_id := e.region_id
    region := e.region_id, url := u }

/-- Modelled from the spec: one per-service group of the effective
catalog. -/
structure CatalogService where
  type : String
  name : String
  endpoints : List CatalogEndpointView
deriving DecidableEq, Repr

/-- Modelled from the spec: `get_v3_catalog(user_id, tenant_id)`
(section 4.3).  The catalog Manager implementation is not in this file
set.  Endpoints are grouped by service, carrying the service type and
name; only enabled endpoints are considered; each URL template is
resolved against the caller's context and any endpoint whose URL fails
to resolve is silently dropped — the function is total and never
surfaces a resolution error. -/
def get_v3_catalog (userId : String) (tenantId : Option String) (st : Store) :
    List CatalogService :=
  st.services.map (fun svc =>
    { type := svc.type
      name := svc.name
      endpoints :=
        (st.endpoints.filter
            (fun e => decide (e.service_id = svc.id) && e.enabled)).filterMap
          (fun e =>
            match resolveUrl userId tenantId e.url with
            | .ok u => some (endpointView e u)
            | .error _ => none) })

/-! ## Concrete fixtures mirroring the test data -/

/-- The empty store. -/
def emptyStore : Store :=
  { regions := [], services := [], endpoints := [] }

/-- A concrete service, as created in `TestCatalogAPISQL.setUp`. -/
def svcW : Service :=
  { id := "s1", type := "identity", name := "keystone", enabled := true }

/-- A resolvable endpoint of `svcW`. -/
def epGood : Endpoint :=
  { id := "e1", service_id := "s1", region_id := none, iface := .publicIface
    url := "http://localhost/", enabled := true }

/-- An endpoint with a malformed template (missing trailing type
character), as in the invalid-urls test. -/
def epMalformed : Endpoint :=
  { id := "e2", service_id := "s1", region_id := none, iface := .publicIface
    url := "http://keystone/%(tenant_id)", enabled := true }

/-- An endpoint whose template references an unknown key, as in the
invalid-urls test. -/
def epUnknownKey : Endpoint :=
  { id := "e3", service_id := "s1", region_id := none, iface := .publicIface
    url := "http://keystone/%(you_wont_find_me)s", enabled := true }

/-- An endpoint whose template requires `tenant_id`. -/
def epTenant : Endpoint :=
  { id := "e4", service_id := "s1", region_id := none, iface := .publicIface
    url := "http://keystone/%(tenant_id)s", enabled := true }

/-- A store holding `svcW` and the four endpoints above. -/
def storeW : Store :=
  { regions := [], services := [svcW]
    endpoints := [epGood, epMalformed, epUnknownKey, epTenant] }

/-- A parent region with no endpoints of its own. -/
def regionP : Region := { id := "P", description := "", parent_region_id := none }

/-- A child of `regionP` holding an endpoint. -/
def regionC : Region := { id := "C", description := "", parent_region_id := some "P" }

/-- The endpoint attached to the child region `regionC`. -/
def epChild : Endpoint :=
  { id := "e5", service_id := "s1", region_id := some "C", iface := .publicIface
    url := "http://x/", enabled := true }

/-- A store where every endpoint lives in a child region of `regionP`. -/
def storeR : Store :=
  { regions := [regionP, regionC], services := [svcW], endpoints := [epChild] }

/-- A store holding one region, used to witness the region theorems. -/
def storeDup : Store :=
  { regions := [{ id := "myregion", description := "my region", parent_region_id := none }]
    services := [], endpoints := [] }

/-! ## Theorems about the schema migration -/

/-- C3: whenever reading the persisted extension-version marker raises
any error, the upgrade step treats the extension version as 0 and
proceeds to apply the migration (creating the table with checkfirst);
the read failure is never propagated — `upgrade` is total. -/
theorem upgrade_version_read_error_applies (s : String) (db : MigrateDB) :
    upgrade (.error s) db = upgrade (.ok 0) db ∧
    upgrade (.error s) db = createTableCheckfirst endpoint_policy_table db :=
  ⟨rfl, rfl⟩

/-- C2: once a successful run has the stored extension version at 1 or
more, a further run of the upgrade step returns without performing any
schema operation: the database state is unchanged, so the table is
created at most once. -/
theorem upgrade_second_run_noop (v : Nat) (db : MigrateDB) (h : 1 ≤ v) :
    upgrade (.ok v) db = db := by
  unfold upgrade
  simp [h]

/-- Witness for C2 at version 1 and a database already holding the
table. -/
theorem upgrade_second_run_noop_witness :
    1 ≤ 1 ∧
    upgrade (.ok 1) { tables := [endpoint_policy_table] }
      = { tables := [endpoint_policy_table] } :=
  ⟨by decide, upgrade_second_run_noop 1 { tables := [endpoint_policy_table] } (by decide)⟩

/-- C4: when the migration applies (version 0, table absent), the table
it creates is named `policy_association` and has exactly the columns
`id varchar(64)` primary key, `policy_id varchar(64)` not nullable,
`endpoint_id`/`service_id`/`region_id` `varchar(64)` nullable, with a
unique constraint on `(endpoint_id, service_id, region_id)`. -/
theorem upgrade_creates_policy_association_schema :
    (upgrade (.ok 0) { tables := [] }).tables = [endpoint_policy_table] ∧
    endpoint_policy_table.name = "policy_association" ∧
    endpoint_policy_table.columns =
      [ { name := "id", ty := .varchar 64, primaryKey := true, nullable := false }
      , { name := "policy_id", ty := .varchar 64, primaryKey := false, nullable := false }
      , { name := "endpoint_id", ty := .varchar 64, primaryKey := false, nullable := true }
      , { name := "service_id", ty := .varchar 64, primaryKey := false, nullable := true }
      , { name := "region_id", ty := .varchar 64, primaryKey := false, nullable := true } ] ∧
    endpoint_policy_table.uniqueConstraint = ["endpoint_id", "service_id", "region_id"] := by
  refine ⟨?_, rfl, rfl, rfl⟩
  decide

/-! ## Theorems about the entity store -/

/-- C6: `create_service` with `enabled` given as any string fails with
`InvalidInput` (HTTP 400) leaving the store unchanged, and with a proper
boolean succeeds, storing and returning exactly that boolean. -/
theorem create_service_enabled_validation (id ty : String) (nm : Option String)
    (st : Store) :
    (∀ s : String,
        create_service id { type := ty, name := nm, enabled := .str s } st
            = (.error .invalidInput, st) ∧
        statusOf .invalidInput = 400) ∧
    (∀ b : Bool,
        (create_service id { type := ty, name := nm, enabled := .bool b } st).1
            = .ok { id := id, type := ty, name := nm.getD "", enabled := b } ∧
        { id := id, type := ty, name := nm.getD "", enabled := b }
          ∈ (create_service id { type := ty, name := nm, enabled := .bool b } st).2.services) := by
  refine ⟨fun s => ⟨rfl, rfl⟩, fun b => ⟨rfl, ?_⟩⟩
  show _ ∈ st.services ++ [_]
  simp

/-- C7: creating a region with a client-supplied id that already exists
fails with `Conflict` (HTTP 409) and the store — hence the existing
region's record — is left unchanged. -/
theorem create_region_duplicate_id_conflict (genId i : String)
    (d p : Option String) (st : Store) (r : Region)
    (hne : i ≠ "") (hex : findRegion st i = some r) :
    create_region genId { id := some i, description := d, parent_region_id := p } st
        = (.error .conflict, st) ∧
    statusOf .conflict = 409 := by
  refine ⟨?_, rfl⟩
  unfold create_region
  simp [hne, hex]

/-- Witness for C7: re-creating the already present region
`myregion`. -/
theorem create_region_duplicate_id_conflict_witness :
    "myregion" ≠ "" ∧
    findRegion storeDup "myregion"
      = some { id := "myregion", description := "my region", parent_region_id := none } ∧
    (create_region "g1"
        { id := some "myregion", description := some "my region", parent_region_id := none }
        storeDup
      = (.error .conflict, storeDup) ∧
     statusOf .conflict = 409) :=
  ⟨by decide, by decide,
   create_region_duplicate_id_conflict "g1" "myregion" (some "my region") none storeDup
     { id := "myregion", description := "my region", parent_region_id := none }
     (by decide) (by decide)⟩

/-- C10: a `PUT /regions/\x7bregion_id\x7d` whose body carries an id
different from the path id fails with HTTP 400 and leaves the store
unchanged, so no region is created under either id. -/
theorem put_region_conflicting_ids_bad_request (pathId bodyId : String)
    (d p : Option String) (st : Store) (hne : bodyId ≠ pathId) :
    put_region pathId { id := some bodyId, description := d, parent_region_id := p } st
        = (.error .invalidInput, st) ∧
    statusOf .invalidInput = 400 := by
  refine ⟨?_, rfl⟩
  unfold put_region
  simp [hne]

/-- Witness for C10 with path id `A` and body id `B`. -/
theorem put_region_conflicting_ids_bad_request_witness :
    "B" ≠ "A" ∧
    (put_region "A" { id := some "B", description := none, parent_region_id := none }
        emptyStore
      = (.error .invalidInput, emptyStore) ∧
     statusOf .invalidInput = 400) :=
  ⟨by decide,
   put_region_conflicting_ids_bad_request "A" "B" none none emptyStore (by decide)⟩

/-- A successful region lookup returns a record carrying the id looked
up. -/
theorem findRegion_id_eq {st : Store} {id : String} {r : Region}
    (h : findRegion st id = some r) : r.id = id := by
  unfold findRegion at h
  have := List.find?_some h
  simpa using this

/-- Replacing, in a region list, every record with a given id by a new
record carrying that same id makes lookup of that id return the new
record, provided the id was present. -/
theorem find?_map_replace (l : List Region) (id : String) (r rNew : Region)
    (h : l.find? (fun x => x.id == id) = some r) (hid : rNew.id = id) :
    (l.map (fun x => if x.id = id then rNew else x)).find? (fun x => x.id == id)
      = some rNew := by
  induction l with
  | nil => simp at h
  | cons a l ih =>
      by_cases ha : a.id = id
      · simp [List.find?_cons, ha, hid]
      · rw [List.find?_cons_of_neg] at h
        · simp only [List.map_cons, if_neg ha]
          rw [List.find?_cons_of_neg]
          · exact ih h
          · simp [ha]
        · simp [ha]

/-- C8: a partial region update whose body omits `description` (here:
sets only `parent_region_id`) returns and stores a record whose
`description` equals the description before the update. -/
theorem update_region_preserves_description (st : Store) (id : String)
    (newParent : Option String) (r : Region) (h : findRegion st id = some r) :
    (update_region id { description := none, parent_region_id := some newParent } st).1
        = .ok { id := r.id, description := r.description, parent_region_id := newParent } ∧
    findRegion
        (update_region id { description := none, parent_region_id := some newParent } st).2 id
      = some { id := r.id, description := r.description, parent_region_id := newParent } := by
  have hid : r.id = id := findRegion_id_eq h
  unfold update_region
  rw [h]
  constructor
  · rfl
  · show findRegion _ id = _
    unfold findRegion
    exact find?_map_replace st.regions id r _ h hid

/-- Witness for C8: updating only `parent_region_id` of `myregion`
keeps its description `"my region"`. -/
theorem update_region_preserves_description_witness :
    findRegion storeDup "myregion"
      = some { id := "myregion", description := "my region", parent_region_id := none } ∧
    ((update_region "myregion"
          { description := none, parent_region_id := some (some "P") } storeDup).1
        = .ok { id := "myregion", description := "my region", parent_region_id := some "P" } ∧
     findRegion
         (update_region "myregion"
           { description := none, parent_region_id := some (some "P") } storeDup).2 "myregion"
       = some { id := "myregion", description := "my region", parent_region_id := some "P" }) :=
  ⟨by decide,
   update_region_preserves_description storeDup "myregion" (some "P")
     { id := "myregion", description := "my region", parent_region_id := none } (by decide)⟩

/-- C9: when every endpoint of the store is attached to a strict child
region of `pid` (a region whose `parent_region_id` is `pid` and whose
own id differs from `pid`), listing endpoints filtered by
`region_id = pid` returns the empty sequence: the filter matches only
the endpoint's exact region id, never descendants. -/
theorem list_endpoints_parent_region_filter_empty (st : Store) (pid : String)
    (h : ∀ e, e ∈ st.endpoints →
        ∃ c, c ∈ st.regions ∧ e.region_id = some c.id ∧
          c.parent_region_id = some pid ∧ c.id ≠ pid) :
    list_endpoints { region_id := some pid } st = [] := by
  unfold list_endpoints
  rw [List.filter_eq_nil_iff]
  intro e he
  obtain ⟨c, _, hrid, _, hcne⟩ := h e he
  simpa [matchesFilter, hrid] using hcne

/-- Witness for C9: `storeR`'s only endpoint lives in the child region
`C` of `P`; filtering by `P` returns nothing. -/
theorem list_endpoints_parent_region_filter_empty_witness :
    (∀ e, e ∈ storeR.endpoints →
        ∃ c, c ∈ storeR.regions ∧ e.region_id = some c.id ∧
          c.parent_region_id = some "P" ∧ c.id ≠ "P") ∧
    list_endpoints { region_id := some "P" } storeR = [] :=
  ⟨by decide, list_endpoints_parent_region_filter_empty storeR "P" (by decide)⟩

/-! ## Theorems about the catalog assembler -/

/-- Every endpoint entry of the assembled catalog comes from a stored
endpoint whose URL template resolved successfully. -/
theorem mem_catalog_source {userId : String} {tenantId : Option String}
    {st : Store} {s : CatalogService} {ce : CatalogEndpointView}
    (hs : s ∈ get_v3_catalog userId tenantId st) (hce : ce ∈ s.endpoints) :
    ∃ e u, e ∈ st.endpoints ∧ resolveUrl userId tenantId e.url = .ok u ∧
      ce = endpointView e u := by
  unfold get_v3_catalog at hs
  obtain ⟨svc, hsvc, rfl⟩ := List.mem_map.mp hs
  simp only at hce
  obtain ⟨e, he, heq⟩ := List.mem_filterMap.mp hce
  have he' := (List.mem_filter.mp he).1
  refine ⟨e, ?_⟩
  cases hres : resolveUrl userId tenantId e.url with
  | ok u =>
      rw [hres] at heq
      simp only [Option.some.injEq] at heq
      exact ⟨u, he', rfl, heq.symm⟩
  | error err => rw [hres] at heq; cases heq

/-- An endpoint record whose URL fails to resolve contributes no entry
to the assembled catalog: no catalog entry carries its id (when ids are
unique in the store). -/
theorem catalog_excludes_of_error {userId : String} {tenantId : Option String}
    {st : Store} {e : Endpoint} {err : UrlError}
    (hres : resolveUrl userId tenantId e.url = .error err)
    (huniq : ∀ e2, e2 ∈ st.endpoints → e2.id = e.id → e2 = e) :
    ∀ s, s ∈ get_v3_catalog userId tenantId st →
      ∀ ce, ce ∈ s.endpoints → ce.id ≠ e.id := by
  intro s hs ce hce hid
  obtain ⟨e2, u, he2, hok, rfl⟩ := mem_catalog_source hs hce
  have he2e : e2 = e := huniq e2 he2 hid
  rw [he2e, hres] at hok
  cases hok

/-- An enabled stored endpoint of a stored service whose URL resolves
appears, as its view, in the assembled catalog. -/
theorem catalog_includes_of_ok {userId : String} {tenantId : Option String}
    {st : Store} {svc : Service} {e : Endpoint} {u : String}
    (hsvc : svc ∈ st.services) (he : e ∈ st.endpoints)
    (hsid : e.service_id = svc.id) (hen : e.enabled = true)
    (hres : resolveUrl userId tenantId e.url = .ok u) :
    ∃ s, s ∈ get_v3_catalog userId tenantId st ∧ endpointView e u ∈ s.endpoints := by
  unfold get_v3_catalog
  refine ⟨_, List.mem_map_of_mem _ hsvc, ?_⟩
  simp only
  apply List.mem_filterMap.mpr
  refine ⟨e, List.mem_filter.mpr ⟨he, by simp [hsid, hen]⟩, ?_⟩
  rw [hres]

/-- C1: an endpoint whose URL template fails to resolve (unknown key or
malformed placeholder) is excluded from the catalog returned by
`get_v3_catalog`, while `list_endpoints()` still includes it; the
resolution failure is never surfaced, `get_v3_catalog` being total. -/
theorem get_v3_catalog_excludes_invalid_urls
    (userId : String) (tenantId : Option String) (st : Store)
    (e : Endpoint) (err : UrlError)
    (hmem : e ∈ st.endpoints)
    (hres : resolveUrl userId tenantId e.url = .error err)
    (huniq : ∀ e2, e2 ∈ st.endpoints → e2.id = e.id → e2 = e) :
    (∀ s, s ∈ get_v3_catalog userId tenantId st →
        ∀ ce, ce ∈ s.endpoints → ce.id ≠ e.id) ∧
    e ∈ list_endpoints noFilter st := by
  refine ⟨catalog_excludes_of_error hres huniq, ?_⟩
  unfold list_endpoints
  exact List.mem_filter.mpr ⟨hmem, by simp [matchesFilter, noFilter]⟩

/-- Witness for C1: in `storeW`, the endpoint with the unknown-key
template is dropped from the catalog but listed by `list_endpoints`. -/
theorem get_v3_catalog_excludes_invalid_urls_witness :
    epUnknownKey ∈ storeW.endpoints ∧
    resolveUrl "u0" (some "t0") epUnknownKey.url = .error .unknownKey ∧
    ((∀ s, s ∈ get_v3_catalog "u0" (some "t0") storeW →
        ∀ ce, ce ∈ s.endpoints → ce.id ≠ epUnknownKey.id) ∧
     epUnknownKey ∈ list_endpoints noFilter storeW) :=
  ⟨by decide, by decide,
   get_v3_catalog_excludes_invalid_urls "u0" (some "t0") storeW epUnknownKey .unknownKey
     (by decide) (by decide) (by decide)⟩

/-- C5: an enabled endpoint whose stored template is
`http://keystone/%(tenant_id)s` is excluded from the catalog when the
substitution context has no tenant, and included with `tenant_id`
substituted into the URL when a concrete tenant is supplied. -/
theorem get_v3_catalog_tenant_id_substitution
    (userId : String) (st : Store) (svc : Service) (e : Endpoint)
    (hsvc : svc ∈ st.services) (he : e ∈ st.endpoints)
    (hsid : e.service_id = svc.id) (hen : e.enabled = true)
    (hurl : e.url = "http://keystone/%(tenant_id)s")
    (huniq : ∀ e2, e2 ∈ st.endpoints → e2.id = e.id → e2 = e) :
    (∀ s, s ∈ get_v3_catalog userId none st →
        ∀ ce, ce ∈ s.endpoints → ce.id ≠ e.id) ∧
    (∀ t : String, ∃ s, s ∈ get_v3_catalog userId (some t) st ∧
        endpointView e ("http://keystone/" ++ t) ∈ s.endpoints) := by
  constructor
  · have hres : resolveUrl userId none e.url = .error .missingValue := by
      rw [hurl]; rfl
    exact catalog_excludes_of_error hres huniq
  · intro t
    have hres : resolveUrl userId (some t) e.url = .ok ("http://keystone/" ++ t) := by
      rw [hurl]
      obtain ⟨l⟩ := t
      have hstep : fmtStep (substContext userId (some ⟨l⟩)) .plain
          "http://keystone/%(tenant_id)s".data
          = .ok ("http://keystone/".data ++ (l ++ [])) := rfl
      simp only [resolveUrl, hstep, Except.map, List.append_nil]
      rfl
    exact catalog_includes_of_ok hsvc he hsid hen hres

/-- Witness for C5: in `storeW`, the `%(tenant_id)s` endpoint is
dropped for a tenantless catalog and substituted for any concrete
tenant. -/
theorem get_v3_catalog_tenant_id_substitution_witness :
    svcW ∈ storeW.services ∧
    epTenant ∈ storeW.endpoints ∧
    epTenant.url = "http://keystone/%(tenant_id)s" ∧
    ((∀ s, s ∈ get_v3_catalog "u0" none storeW →
        ∀ ce, ce ∈ s.endpoints → ce.id ≠ epTenant.id) ∧
     (∀ t : String, ∃ s, s ∈ get_v3_catalog "u0" (some t) storeW ∧
        endpointView epTenant ("http://keystone/" ++ t) ∈ s.endpoints)) :=
  ⟨by decide, by decide, by decide,
   get_v3_catalog_tenant_id_substitution "u0" storeW svcW epTenant
     (by decide) (by decide) (by decide) (by decide) (by decide) (by decide)⟩

end Keystone
